import Mathlib

/-
Verification of the AOF session-lifecycle event processor
(services/aof-service/src/service.py) against its specification.

The Python handlers are shallowly embedded as pure Lean functions:
  * JSON values (the results of json.loads and arguments of json.dumps)
    become the inductive type `Json`;
  * the Redis store becomes a map from string keys to a `ReadResult`
    (never written, read/deserialization error, or a stored document);
  * each handler is modelled as a function from its parsed payload, the
    store and the processing-time clock value to the ordered list of
    externally observable effects it performs (store reads, store
    writes, bus publishes);
  * Python exceptions raised inside a handler body are modelled by the
    `BodyResult.raised` constructor carrying the effects performed up to
    the raise; the top-level handler is the catch that turns either
    outcome into a plain effect list, mirroring the per-message
    try/except in the source.
-/

namespace AOF

/-- JSON values as produced by json.loads and consumed by json.dumps.
Python `None` and JSON `null` are identified, as json.dumps does. -/
inductive Json where
  | null : Json
  | bool : Bool → Json
  | num : Int → Json
  | str : String → Json
  | arr : List Json → Json
  | obj : List (String × Json) → Json

/-- Python truthiness of a JSON value, as tested by `if not session_id`. -/
def Json.truthy : Json → Bool
  | .null => false
  | .bool b => b
  | .num n => n != 0
  | .str s => s != ""
  | .arr xs => !xs.isEmpty
  | .obj kvs => !kvs.isEmpty

mutual
/-- Python repr of a JSON value (used by str() on non-string values). -/
def pyRepr : Json → String
  | .null => "None"
  | .bool true => "True"
  | .bool false => "False"
  | .num n => toString n
  | .str s => "'" ++ s ++ "'"
  | .arr xs => "[" ++ pyReprList xs ++ "]"
  | .obj kvs => "\x7b" ++ pyReprKVs kvs ++ "\x7d"

/-- Comma-separated reprs of the elements of a JSON array. -/
def pyReprList : List Json → String
  | [] => ""
  | [x] => pyRepr x
  | x :: y :: rest => pyRepr x ++ ", " ++ pyReprList (y :: rest)

/-- Comma-separated reprs of the entries of a JSON object. -/
def pyReprKVs : List (String × Json) → String
  | [] => ""
  | [(k, v)] => "'" ++ k ++ "': " ++ pyRepr v
  | (k, v) :: kv :: rest => "'" ++ k ++ "': " ++ pyRepr v ++ ", " ++ pyReprKVs (kv :: rest)
end

/-- Python str() of a JSON value, as interpolated by an f-string. -/
def Json.pyStr : Json → String
  | .str s => s
  | j => pyRepr j

instance : Repr Json := ⟨fun j _ => Std.Format.text (pyRepr j)⟩

mutual
/-- Decidable equality of JSON values. -/
def Json.decEq : (a b : Json) → Decidable (a = b)
  | .null, .null => isTrue rfl
  | .null, .bool _ => isFalse nofun
  | .null, .num _ => isFalse nofun
  | .null, .str _ => isFalse nofun
  | .null, .arr _ => isFalse nofun
  | .null, .obj _ => isFalse nofun
  | .bool _, .null => isFalse nofun
  | .bool a, .bool b =>
    if h : a = b then isTrue (h ▸ rfl)
    else isFalse fun hh => h (Json.bool.inj hh)
  | .bool _, .num _ => isFalse nofun
  | .bool _, .str _ => isFalse nofun
  | .bool _, .arr _ => isFalse nofun
  | .bool _, .obj _ => isFalse nofun
  | .num _, .null => isFalse nofun
  | .num _, .bool _ => isFalse nofun
  | .num a, .num b =>
    if h : a = b then isTrue (h ▸ rfl)
    else isFalse fun hh => h (Json.num.inj hh)
  | .num _, .str _ => isFalse nofun
  | .num _, .arr _ => isFalse nofun
  | .num _, .obj _ => isFalse nofun
  | .str _, .null => isFalse nofun
  | .str _, .bool _ => isFalse nofun
  | .str _, .num _ => isFalse nofun
  | .str a, .str b =>
    if h : a = b then isTrue (h ▸ rfl)
    else isFalse fun hh => h (Json.str.inj hh)
  | .str _, .arr _ => isFalse nofun
  | .str _, .obj _ => isFalse nofun
  | .arr _, .null => isFalse nofun
  | .arr _, .bool _ => isFalse nofun
  | .arr _, .num _ => isFalse nofun
  | .arr _, .str _ => isFalse nofun
  | .arr xs, .arr ys =>
    match Json.decEqList xs ys with
    | isTrue h => isTrue (h ▸ rfl)
    | isFalse h => isFalse fun hh => h (Json.arr.inj hh)
  | .arr _, .obj _ => isFalse nofun
  | .obj _, .null => isFalse nofun
  | .obj _, .bool _ => isFalse nofun
  | .obj _, .num _ => isFalse nofun
  | .obj _, .str _ => isFalse nofun
  | .obj _, .arr _ => isFalse nofun
  | .obj xs, .obj ys =>
    match Json.decEqKVs xs ys with
    | isTrue h => isTrue (h ▸ rfl)
    | isFalse h => isFalse fun hh => h (Json.obj.inj hh)

/-- Decidable equality of JSON arrays. -/
def Json.decEqList : (a b : List Json) → Decidable (a = b)
  | [], [] => isTrue rfl
  | [], _ :: _ => isFalse nofun
  | _ :: _, [] => isFalse nofun
  | x :: xs, y :: ys =>
    match Json.decEq x y, Json.decEqList xs ys with
    | isTrue h1, isTrue h2 => isTrue (by rw [h1, h2])
    | isFalse h1, _ => isFalse fun hh => h1 (List.cons.inj hh).1
    | _, isFalse h2 => isFalse fun hh => h2 (List.cons.inj hh).2

/-- Decidable equality of JSON object entry lists. -/
def Json.decEqKVs : (a b : List (String × Json)) → Decidable (a = b)
  | [], [] => isTrue rfl
  | [], _ :: _ => isFalse nofun
  | _ :: _, [] => isFalse nofun
  | (k, v) :: xs, (k', v') :: ys =>
    if h1 : k = k' then
      match Json.decEq v v', Json.decEqKVs xs ys with
      | isTrue h2, isTrue h3 => isTrue (by rw [h1, h2, h3])
      | isFalse h2, _ => isFalse fun hh => by
          injection hh with hhd _
          exact h2 (congrArg Prod.snd hhd)
      | _, isFalse h3 => isFalse fun hh => h3 (List.cons.inj hh).2
    else isFalse fun hh => by
      injection hh with hhd _
      exact h1 (congrArg Prod.fst hhd)
end

instance : DecidableEq Json := Json.decEq

/-- Lookup in a Python dict represented as an insertion-ordered
association list. -/
def lookupKV : List (String × Json) → String → Option Json
  | [], _ => none
  | (k', v) :: rest, k => if k' = k then some v else lookupKV rest k

/-- Assignment `d[k] = v` on a Python dict: replaces the value in place
when the key is present, otherwise appends the entry at the end. -/
def setKV : List (String × Json) → String → Json → List (String × Json)
  | [], k, v => [(k, v)]
  | (k', v') :: rest, k, v =>
      if k' = k then (k, v) :: rest else (k', v') :: setKV rest k v

/-- Python `d.get(k)` on a value known to be a dict: `None` when the key
is absent. -/
def objGet (kvs : List (String × Json)) (k : String) : Json :=
  (lookupKV kvs k).getD .null

/-- Python `d.get(k, default)` on a value known to be a dict. -/
def objGetD (kvs : List (String × Json)) (k : String) (d : Json) : Json :=
  (lookupKV kvs k).getD d

/-- Python `x.get(k, default)` on an arbitrary value: raises
AttributeError unless the receiver is a dict. -/
def pyGetD : Json → String → Json → Except Unit Json
  | .obj kvs, k, d => .ok (objGetD kvs k d)
  | _, _, _ => .error ()

/-- Python `x[k] = v` on an arbitrary value: raises unless the receiver
is a dict. -/
def pySet : Json → String → Json → Except Unit Json
  | .obj kvs, k, v => .ok (.obj (setKV kvs k v))
  | _, _, _ => .error ()

/-- Python `x.update(entries)` on an arbitrary value: raises unless the
receiver is a dict; entries are applied in order. -/
def pyUpdate : Json → List (String × Json) → Except Unit Json
  | .obj kvs, upds => .ok (.obj (upds.foldl (fun acc kv => setKV acc kv.1 kv.2) kvs))
  | _, _ => .error ()

/-- Python `x.append(v)` on an arbitrary value: raises unless the
receiver is a list. -/
def pyListAppend : Json → Json → Except Unit Json
  | .arr xs, v => .ok (.arr (xs ++ [v]))
  | _, _ => .error ()

/-- The session_control dict built by process_command (lines 112-117):
a control event record. Note that it carries the sessionId alongside
action, timestamp and reason. -/
def ctrlEntry (sid : Json) (cmd now : String) (reason : Json) : Json :=
  .obj [("sessionId", sid),
        ("action", .str cmd),
        ("timestamp", .str now),
        ("reason", reason)]

/-- Result of a raw Redis GET as seen by retrieve_session_state:
the key was never written (redis returns nothing), the read or the
JSON deserialization raised, or a JSON document was stored. -/
inductive ReadResult where
  | notFound : ReadResult
  | err : ReadResult
  | found : Json → ReadResult
deriving DecidableEq, Repr

/-- The Redis key-value store, as visible through get/set. -/
def Store := String → ReadResult

/-- Effect of a successful `redis.set(key, json.dumps(doc))`. -/
def Store.set (s : Store) (k : String) (v : Json) : Store :=
  fun k' => if k' = k then .found v else s k'

/-- A store in which no key was ever written. -/
def emptyStore : Store := fun _ => .notFound

/-- Externally observable effects of a handler, in execution order. -/
inductive Effect where
  | read : String → Effect
  | write : String → Json → Effect
  | publish : String → Json → Effect
deriving DecidableEq, Repr

/-- Replay the store writes of an effect trace onto a store. -/
def replay (s : Store) : List Effect → Store
  | [] => s
  | .write k v :: rest => replay (Store.set s k v) rest
  | .read _ :: rest => replay s rest
  | .publish _ _ :: rest => replay s rest

/-- Outcome of a handler body: it either completed, or a Python
exception was raised part-way; both carry the effects performed. -/
inductive BodyResult where
  | raised : List Effect → BodyResult
  | completed : List Effect → BodyResult
deriving DecidableEq, Repr

/-- Effects performed by a handler body, whether or not it raised. -/
def BodyResult.effects : BodyResult → List Effect
  | .raised es => es
  | .completed es => es

/-- Whether the handler body raised a Python exception. -/
def BodyResult.isRaised : BodyResult → Bool
  | .raised _ => true
  | .completed _ => false

/-- retrieve_session_state: a missing key, a failed read and a failed
deserialization all yield the empty document; errors are caught inside
and never propagate (service.py lines 67-74). -/
def retrieve_session_state (store : Store) (session_id : String) : Json :=
  match store session_id with
  | .found j => j
  | .notFound => .obj []
  | .err => .obj []

/-- publish_highlighted_word: serializes
\x7bsessionId, highlightedWord, timestamp=now\x7d and publishes it on the
fixed subject; publish failures are caught inside (lines 176-197). -/
def publish_highlighted_word (session_id highlighted_word : Json) (now : String) :
    List Effect :=
  [.publish "aof.word.highlighted"
    (.obj [("sessionId", session_id),
           ("highlightedWord", highlighted_word),
           ("timestamp", .str now)])]

/-- The session_initiation dict built by the start branch of
process_command (lines 98-106): every field comes from this payload,
with startTime defaulting to the processing-time clock and the two
config objects defaulting to empty dicts. -/
def session_initiation (kvs : List (String × Json)) (sid : Json) (now : String) :
    List (String × Json) :=
  [("sessionId", sid),
   ("patientDID", objGet kvs "patientDID"),
   ("clinicianDID", objGet kvs "clinicianDID"),
   ("clinicName", objGet kvs "clinicName"),
   ("startTime", objGetD kvs "startTime" (.str now)),
   ("audioConfig", objGetD kvs "audioConfig" (.obj [])),
   ("transcriptPreferences", objGetD kvs "transcriptPreferences" (.obj []))]

/-- Body of process_command (service.py lines 79-128), before the
enclosing try/except. `parsed` is the result of
`json.loads(msg.data.decode())` (`none` when decoding or parsing
raised); `now` is `datetime.now().isoformat()` captured at line 82. -/
def process_command_body (command_type : String) (parsed : Option Json)
    (store : Store) (now : String) : BodyResult :=
  match parsed with
  | none => .raised []
  | some (Json.obj kvs) =>
    let session_id := objGet kvs "sessionId"
    let unique_session_id := session_id.pyStr ++ ":aof-service"
    if !session_id.truthy then
      .completed []
    else
      let session_state := retrieve_session_state store unique_session_id
      let afterStart : Except Unit Json :=
        if command_type = "start" then
          pyUpdate session_state (session_initiation kvs session_id now)
        else .ok session_state
      match afterStart with
      | .error _ => .raised [.read unique_session_id]
      | .ok st1 =>
        let session_control : Json :=
          ctrlEntry session_id command_type now (objGet kvs "reason")
        match pyGetD st1 "control" (.arr []) with
        | .error _ => .raised [.read unique_session_id]
        | .ok ctrl =>
          match pySet st1 "control" ctrl with
          | .error _ => .raised [.read unique_session_id]
          | .ok st2 =>
            match pyListAppend ctrl session_control with
            | .error _ => .raised [.read unique_session_id]
            | .ok ctrl2 =>
              match pySet st2 "control" ctrl2 with
              | .error _ => .raised [.read unique_session_id]
              | .ok st3 =>
                match (if command_type = "stop"
                       then pySet st3 "endTime" (.str now)
                       else .ok st3) with
                | .error _ => .raised [.read unique_session_id]
                | .ok st4 =>
                  .completed [.read unique_session_id,
                              .write unique_session_id st4]
  | some _ => .raised []

/-- process_command: the body wrapped in the per-message try/except
(lines 77-130); either way the handler returns normally with the
effects performed. -/
def process_command (command_type : String) (parsed : Option Json)
    (store : Store) (now : String) : List Effect :=
  match process_command_body command_type parsed store now with
  | .raised es => es
  | .completed es => es

/-- process_command_start (line 132). -/
def process_command_start (parsed : Option Json) (store : Store) (now : String) :
    List Effect :=
  process_command "start" parsed store now

/-- process_command_stop (line 136). -/
def process_command_stop (parsed : Option Json) (store : Store) (now : String) :
    List Effect :=
  process_command "stop" parsed store now

/-- process_command_pause (line 140). -/
def process_command_pause (parsed : Option Json) (store : Store) (now : String) :
    List Effect :=
  process_command "pause" parsed store now

/-- process_command_resume (line 144). -/
def process_command_resume (parsed : Option Json) (store : Store) (now : String) :
    List Effect :=
  process_command "resume" parsed store now

/-- Body of process_transcription (lines 150-172), before the enclosing
try/except. `now` is the clock value used by publish_highlighted_word. -/
def process_transcription_body (parsed : Option Json) (store : Store)
    (now : String) : BodyResult :=
  match parsed with
  | none => .raised []
  | some (Json.obj kvs) =>
    let session_id := objGet kvs "sessionId"
    let transcript := objGet kvs "transcript"
    if !session_id.truthy then
      .completed []
    else
      let key := session_id.pyStr
      let session_state := retrieve_session_state store key
      match pyGetD session_state "transcriptions" (.arr []) with
      | .error _ => .raised [.read key]
      | .ok ts =>
        match pySet session_state "transcriptions" ts with
        | .error _ => .raised [.read key]
        | .ok st1 =>
          match pyListAppend ts transcript with
          | .error _ => .raised [.read key]
          | .ok ts2 =>
            match pySet st1 "transcriptions" ts2 with
            | .error _ => .raised [.read key]
            | .ok st2 =>
              .completed ([.read key, .write key st2] ++
                publish_highlighted_word session_id transcript now)
  | some _ => .raised []

/-- process_transcription: the body wrapped in the per-message
try/except (lines 148-174). -/
def process_transcription (parsed : Option Json) (store : Store)
    (now : String) : List Effect :=
  match process_transcription_body parsed store now with
  | .raised es => es
  | .completed es => es

/-- Serial processing of a list of transcription payloads
\x7b"sessionId": sid, "transcript": t\x7d for one session, each handler
run on the store produced by the previous one; returns the final store
and the per-event effect traces in order. -/
def runTranscriptions (sid : String) (now : String) :
    List Json → Store → Store × List (List Effect)
  | [], store => (store, [])
  | t :: rest, store =>
    let tr := process_transcription
      (some (.obj [("sessionId", .str sid), ("transcript", t)])) store now
    let out := runTranscriptions sid now rest (replay store tr)
    (out.1, tr :: out.2)

/-- Field access on a stored document (none when absent or not a dict). -/
def Json.field : Json → String → Option Json
  | .obj kvs, k => lookupKV kvs k
  | _, _ => none

/-- The key list of a JSON object document. -/
def Json.keys : Json → List String
  | .obj kvs => kvs.map Prod.fst
  | _ => []

/-- Whether a JSON value is an object. -/
def Json.isObj : Json → Bool
  | .obj _ => true
  | _ => false

/-- Whether an optional field value is absent or a JSON array (the
shapes under which a Python `.append` on it after `.get(k, [])`
succeeds). -/
def isArrOrAbsent : Option Json → Bool
  | none => true
  | some (.arr _) => true
  | _ => false

/-- The array stored under field k of a document ([] when absent). -/
def arrField (j : Json) (k : String) : List Json :=
  match j.field k with
  | some (.arr xs) => xs
  | _ => []

/-- The control sequence of a stored document ([] when absent). -/
def controlList (j : Json) : List Json :=
  arrField j "control"

theorem lookupKV_setKV (kvs : List (String × Json)) (k k' : String) (v : Json) :
    lookupKV (setKV kvs k v) k' = if k' = k then some v else lookupKV kvs k' := by
  induction kvs with
  | nil =>
    by_cases h : k' = k
    · subst h; simp [setKV, lookupKV]
    · simp [setKV, lookupKV, h, Ne.symm h]
  | cons hd tl ih =>
    obtain ⟨a, b⟩ := hd
    by_cases h1 : a = k
    · subst h1
      by_cases h2 : k' = a
      · subst h2; simp [setKV, lookupKV]
      · simp [setKV, lookupKV, h2, Ne.symm h2]
    · by_cases h3 : a = k'
      · subst h3; simp [setKV, lookupKV, h1]
      · simp [setKV, lookupKV, h1, h3, ih]

theorem setKV_setKV (kvs : List (String × Json)) (k : String) (v w : Json) :
    setKV (setKV kvs k v) k w = setKV kvs k w := by
  induction kvs with
  | nil => simp [setKV]
  | cons hd tl ih =>
    obtain ⟨a, b⟩ := hd
    by_cases h : a = k <;> simp [setKV, h, ih]

theorem objGetD_arr (okvs : List (String × Json)) (k : String)
    (h : isArrOrAbsent (lookupKV okvs k) = true) :
    objGetD okvs k (.arr []) = .arr (arrField (.obj okvs) k) := by
  cases hh : lookupKV okvs k with
  | none => simp [objGetD, arrField, Json.field, hh]
  | some j =>
    cases j with
    | arr xs => simp [objGetD, arrField, Json.field, hh]
    | null => rw [hh] at h; simp [isArrOrAbsent] at h
    | bool b => rw [hh] at h; simp [isArrOrAbsent] at h
    | num n => rw [hh] at h; simp [isArrOrAbsent] at h
    | str s => rw [hh] at h; simp [isArrOrAbsent] at h
    | obj kvs => rw [hh] at h; simp [isArrOrAbsent] at h

theorem retrieve_set_self (store : Store) (k : String) (d : Json) :
    retrieve_session_state (Store.set store k d) k = d := by
  simp [retrieve_session_state, Store.set]

theorem replay_command_trace (store : Store) (k : String) (d : Json) :
    replay store [.read k, .write k d] = Store.set store k d :=
  rfl

theorem replay_transcription_trace (store : Store) (k subj : String) (d m : Json) :
    replay store [.read k, .write k d, .publish subj m] = Store.set store k d :=
  rfl

/-- The entry list of the document written back by process_command when
its body completes: the start merge (for start only), then the control
append, then the endTime assignment (for stop only). -/
def commandResultKVs (cmd : String) (kvs okvs : List (String × Json))
    (sid : Json) (now : String) : List (String × Json) :=
  let base := if cmd = "start"
    then (session_initiation kvs sid now).foldl (fun acc kv => setKV acc kv.1 kv.2) okvs
    else okvs
  let withCtrl := setKV base "control"
    (.arr (arrField (.obj okvs) "control" ++ [ctrlEntry sid cmd now (objGet kvs "reason")]))
  if cmd = "stop" then setKV withCtrl "endTime" (.str now) else withCtrl

theorem lookup_start_merge (kvs okvs : List (String × Json)) (sid : Json)
    (now : String) (k : String)
    (hk : k ∉ ["sessionId", "patientDID", "clinicianDID", "clinicName",
               "startTime", "audioConfig", "transcriptPreferences"]) :
    lookupKV ((session_initiation kvs sid now).foldl
        (fun acc kv => setKV acc kv.1 kv.2) okvs) k = lookupKV okvs k := by
  simp only [List.mem_cons, List.not_mem_nil, or_false, not_or] at hk
  obtain ⟨h1, h2, h3, h4, h5, h6, h7⟩ := hk
  simp [session_initiation, List.foldl, lookupKV_setKV, h1, h2, h3, h4, h5, h6, h7]

/-- Characterization of process_command on a payload with a non-empty
string sessionId against a stored document that is a JSON object whose
control field (when present) is an array: one read and one write at the
suffixed key, the written document being the commandResultKVs merge. -/
theorem process_command_run (cmd : String) (kvs okvs : List (String × Json))
    (s : String) (store : Store) (now : String)
    (hsid : lookupKV kvs "sessionId" = some (.str s)) (hs : s ≠ "")
    (hold : retrieve_session_state store (s ++ ":aof-service") = .obj okvs)
    (hctrl : isArrOrAbsent (lookupKV okvs "control") = true) :
    process_command cmd (some (.obj kvs)) store now =
      [.read (s ++ ":aof-service"),
       .write (s ++ ":aof-service")
         (.obj (commandResultKVs cmd kvs okvs (.str s) now))] := by
  have hget : objGet kvs "sessionId" = .str s := by simp [objGet, hsid]
  have htr : (Json.str s).truthy = true := by simp [Json.truthy, hs]
  have hgd : objGetD okvs "control" (.arr []) = .arr (arrField (.obj okvs) "control") :=
    objGetD_arr okvs "control" hctrl
  unfold process_command process_command_body
  by_cases hc : cmd = "start"
  · subst hc
    have hbase : lookupKV ((session_initiation kvs (.str s) now).foldl
        (fun acc kv => setKV acc kv.1 kv.2) okvs) "control" = lookupKV okvs "control" :=
      lookup_start_merge kvs okvs (.str s) now "control" (by decide)
    simp only [hget, Json.pyStr, htr, Bool.not_true, Bool.false_eq_true, if_false, hold,
      pyUpdate, pyGetD, pySet, pyListAppend, commandResultKVs, reduceIte,
      objGetD, hbase]
    rw [show (lookupKV okvs "control").getD (.arr []) = .arr (arrField (.obj okvs) "control")
      from hgd]
    simp [setKV_setKV]
  · by_cases hc2 : cmd = "stop"
    · subst hc2
      have e1 : ("stop" = "start") = False := by simp
      simp only [hget, Json.pyStr, htr, Bool.not_true, Bool.false_eq_true, if_false, hold,
        pyUpdate, pyGetD, pySet, pyListAppend, commandResultKVs, reduceIte, e1,
        objGetD]
      rw [show (lookupKV okvs "control").getD (.arr []) = .arr (arrField (.obj okvs) "control")
        from hgd]
      simp [setKV_setKV]
    · simp only [hget, Json.pyStr, htr, Bool.not_true, Bool.false_eq_true, if_false, hold,
        pyUpdate, pyGetD, pySet, pyListAppend, commandResultKVs, hc, hc2, if_false,
        objGetD]
      rw [show (lookupKV okvs "control").getD (.arr []) = .arr (arrField (.obj okvs) "control")
        from hgd]
      simp [setKV_setKV]

theorem commandResult_control (cmd : String) (kvs okvs : List (String × Json))
    (sid : Json) (now : String) :
    lookupKV (commandResultKVs cmd kvs okvs sid now) "control" =
      some (.arr (arrField (.obj okvs) "control" ++
        [ctrlEntry sid cmd now (objGet kvs "reason")])) := by
  unfold commandResultKVs
  by_cases h : cmd = "stop" <;> simp [h, lookupKV_setKV]

theorem commandResult_frame (cmd : String) (kvs okvs : List (String × Json))
    (sid : Json) (now : String) (f : String)
    (h1 : cmd ≠ "start") (h2 : cmd ≠ "stop") (hf : f ≠ "control") :
    lookupKV (commandResultKVs cmd kvs okvs sid now) f = lookupKV okvs f := by
  simp [commandResultKVs, h1, h2, lookupKV_setKV, hf]

theorem commandResult_stop_endTime (kvs okvs : List (String × Json))
    (sid : Json) (now : String) :
    lookupKV (commandResultKVs "stop" kvs okvs sid now) "endTime" =
      some (.str now) := by
  simp [commandResultKVs, lookupKV_setKV]

theorem commandResult_start_fields (kvs okvs : List (String × Json))
    (sid : Json) (now : String) :
    lookupKV (commandResultKVs "start" kvs okvs sid now) "sessionId" = some sid ∧
    lookupKV (commandResultKVs "start" kvs okvs sid now) "patientDID" =
      some (objGet kvs "patientDID") ∧
    lookupKV (commandResultKVs "start" kvs okvs sid now) "clinicianDID" =
      some (objGet kvs "clinicianDID") ∧
    lookupKV (commandResultKVs "start" kvs okvs sid now) "clinicName" =
      some (objGet kvs "clinicName") ∧
    lookupKV (commandResultKVs "start" kvs okvs sid now) "startTime" =
      some (objGetD kvs "startTime" (.str now)) ∧
    lookupKV (commandResultKVs "start" kvs okvs sid now) "audioConfig" =
      some (objGetD kvs "audioConfig" (.obj [])) ∧
    lookupKV (commandResultKVs "start" kvs okvs sid now) "transcriptPreferences" =
      some (objGetD kvs "transcriptPreferences" (.obj [])) := by
  refine ⟨?_, ?_, ?_, ?_, ?_, ?_, ?_⟩ <;>
    simp [commandResultKVs, session_initiation, List.foldl, lookupKV_setKV]

/-- Characterization of process_transcription on a payload with a
non-empty string sessionId against a stored document that is a JSON
object whose transcriptions field (when present) is an array: one read
and one write at the raw key, then one publish of the highlighted-word
event. -/
theorem process_transcription_run (kvs okvs : List (String × Json))
    (s : String) (store : Store) (now : String)
    (hsid : lookupKV kvs "sessionId" = some (.str s)) (hs : s ≠ "")
    (hold : retrieve_session_state store s = .obj okvs)
    (hts : isArrOrAbsent (lookupKV okvs "transcriptions") = true) :
    process_transcription (some (.obj kvs)) store now =
      [.read s,
       .write s (.obj (setKV okvs "transcriptions"
         (.arr (arrField (.obj okvs) "transcriptions" ++ [objGet kvs "transcript"])))),
       .publish "aof.word.highlighted"
         (.obj [("sessionId", .str s),
                ("highlightedWord", objGet kvs "transcript"),
                ("timestamp", .str now)])] := by
  have hget : objGet kvs "sessionId" = .str s := by simp [objGet, hsid]
  have htr : (Json.str s).truthy = true := by simp [Json.truthy, hs]
  have hgd := objGetD_arr okvs "transcriptions" hts
  unfold process_transcription process_transcription_body publish_highlighted_word
  simp only [hget, Json.pyStr, htr, Bool.not_true, Bool.false_eq_true, if_false, hold,
    pyGetD, pySet, pyListAppend, objGetD]
  rw [show (lookupKV okvs "transcriptions").getD (.arr []) =
    .arr (arrField (.obj okvs) "transcriptions") from hgd]
  simp [setKV_setKV]

/-- Invariant of serial transcription processing: if the document at
the raw session key is exactly \x7b"transcriptions": pre\x7d (or the key
was never written and pre = []), then processing a list of transcripts
appends them in order, and the i-th event's trace is a read, then the
write of the document holding the first i+1 transcripts, then the
highlighted-word publish of the i-th transcript. -/
theorem runTranscriptions_inv (s now : String) (hs : s ≠ "") (ts : List Json) :
    ∀ (pre : List Json) (store : Store),
      (store s = .found (.obj [("transcriptions", .arr pre)]) ∨
        (store s = .notFound ∧ pre = [])) →
      ((runTranscriptions s now ts store).1 s =
          .found (.obj [("transcriptions", .arr (pre ++ ts))]) ∨
        ((runTranscriptions s now ts store).1 s = .notFound ∧ pre ++ ts = [])) ∧
      (runTranscriptions s now ts store).2.length = ts.length ∧
      ∀ (i : Nat) (t : Json), ts[i]? = some t →
        (runTranscriptions s now ts store).2[i]? = some
          [.read s,
           .write s (.obj [("transcriptions", .arr (pre ++ ts.take (i + 1)))]),
           .publish "aof.word.highlighted"
             (.obj [("sessionId", .str s), ("highlightedWord", t),
                    ("timestamp", .str now)])] := by
  induction ts with
  | nil =>
    intro pre store hinv
    refine ⟨by simpa [runTranscriptions] using hinv, rfl, ?_⟩
    intro i t hit
    simp at hit
  | cons t rest ih =>
    intro pre store hinv
    have hokvs : retrieve_session_state store s = .obj [("transcriptions", .arr pre)] ∨
        (retrieve_session_state store s = .obj [] ∧ pre = []) := by
      rcases hinv with hfound | ⟨hnf, hpre⟩
      · exact Or.inl (by simp [retrieve_session_state, hfound])
      · exact Or.inr ⟨by simp [retrieve_session_state, hnf], hpre⟩
    have hrun : process_transcription
        (some (.obj [("sessionId", .str s), ("transcript", t)])) store now =
        [.read s,
         .write s (.obj [("transcriptions", .arr (pre ++ [t]))]),
         .publish "aof.word.highlighted"
           (.obj [("sessionId", .str s), ("highlightedWord", t),
                  ("timestamp", .str now)])] := by
      rcases hokvs with hfound | ⟨hemp, hpre⟩
      · have h := process_transcription_run
          [("sessionId", .str s), ("transcript", t)]
          [("transcriptions", .arr pre)] s store now
          (by simp [lookupKV]) hs hfound (by simp [lookupKV, isArrOrAbsent])
        simpa [objGet, lookupKV, setKV, arrField, Json.field] using h
      · subst hpre
        have h := process_transcription_run
          [("sessionId", .str s), ("transcript", t)]
          [] s store now
          (by simp [lookupKV]) hs hemp (by simp [lookupKV, isArrOrAbsent])
        simpa [objGet, lookupKV, setKV, arrField, Json.field] using h
    have hstep := ih (pre ++ [t])
      (replay store (process_transcription
        (some (.obj [("sessionId", .str s), ("transcript", t)])) store now))
      (by
        rw [hrun]
        exact Or.inl (by simp [replay, Store.set]))
    obtain ⟨hA, hB, hC⟩ := hstep
    refine ⟨?_, ?_, ?_⟩
    · simp only [runTranscriptions]
      rcases hA with hA | ⟨_, hA2⟩
      · exact Or.inl (by simpa [List.append_assoc] using hA)
      · exact absurd hA2 (by simp)
    · simp only [runTranscriptions, List.length_cons, hB]
    · intro i t' hit
      cases i with
      | zero =>
        simp at hit
        subst hit
        simp only [runTranscriptions]
        simp [hrun]
      | succ j =>
        simp only [List.getElem?_cons_succ] at hit
        have := hC j t' hit
        simp only [runTranscriptions]
        simpa [List.append_assoc] using this

/-- C1: for every start command whose payload parses as JSON and
contains a (non-empty string) sessionId s, handling reads the document
at key s ++ ":aof-service", merges the session-initiation fields into
it (startTime defaulting to the processing-time clock when absent),
appends exactly one control entry whose action is "start" (control
length increases by exactly 1 and the last entry has action = start),
and persists the result back at that same key. -/
theorem start_command_semantics
    (kvs okvs : List (String × Json)) (s : String) (store : Store) (now : String)
    (hsid : lookupKV kvs "sessionId" = some (.str s)) (hs : s ≠ "")
    (hold : retrieve_session_state store (s ++ ":aof-service") = .obj okvs)
    (hctrl : isArrOrAbsent (lookupKV okvs "control") = true) :
    ∃ d : Json,
      process_command "start" (some (.obj kvs)) store now =
        [.read (s ++ ":aof-service"), .write (s ++ ":aof-service") d] ∧
      retrieve_session_state
        (replay store (process_command "start" (some (.obj kvs)) store now))
        (s ++ ":aof-service") = d ∧
      controlList d =
        controlList (.obj okvs) ++ [ctrlEntry (.str s) "start" now (objGet kvs "reason")] ∧
      (controlList d).length = (controlList (.obj okvs)).length + 1 ∧
      (controlList d).getLast? =
        some (ctrlEntry (.str s) "start" now (objGet kvs "reason")) ∧
      (ctrlEntry (.str s) "start" now (objGet kvs "reason")).field "action" =
        some (.str "start") ∧
      d.field "sessionId" = some (.str s) ∧
      d.field "patientDID" = some (objGet kvs "patientDID") ∧
      d.field "clinicianDID" = some (objGet kvs "clinicianDID") ∧
      d.field "clinicName" = some (objGet kvs "clinicName") ∧
      d.field "startTime" = some (objGetD kvs "startTime" (.str now)) ∧
      d.field "audioConfig" = some (objGetD kvs "audioConfig" (.obj [])) ∧
      d.field "transcriptPreferences" =
        some (objGetD kvs "transcriptPreferences" (.obj [])) := by
  have hrun := process_command_run "start" kvs okvs s store now hsid hs hold hctrl
  obtain ⟨f1, f2, f3, f4, f5, f6, f7⟩ := commandResult_start_fields kvs okvs (.str s) now
  refine ⟨.obj (commandResultKVs "start" kvs okvs (.str s) now), hrun, ?_, ?_, ?_, ?_, ?_,
    ?_, ?_, ?_, ?_, ?_, ?_, ?_⟩
  · rw [hrun, replay_command_trace, retrieve_set_self]
  · simp [controlList, arrField, Json.field, commandResult_control]
  · simp [controlList, arrField, Json.field, commandResult_control]
  · simp [controlList, arrField, Json.field, commandResult_control]
  · simp [ctrlEntry, Json.field, lookupKV]
  · simpa [Json.field] using f1
  · simpa [Json.field] using f2
  · simpa [Json.field] using f3
  · simpa [Json.field] using f4
  · simpa [Json.field] using f5
  · simpa [Json.field] using f6
  · simpa [Json.field] using f7

/-- The start payload of the C1 scenario:
\x7b"sessionId":"s1","patientDID":"p1","startTime":"2024-01-01T00:00:00Z"\x7d. -/
def c1Payload : List (String × Json) :=
  [("sessionId", .str "s1"), ("patientDID", .str "p1"),
   ("startTime", .str "2024-01-01T00:00:00Z")]

theorem start_command_semantics_witness :
    (lookupKV c1Payload "sessionId" = some (.str "s1") ∧ "s1" ≠ "" ∧
     retrieve_session_state emptyStore ("s1" ++ ":aof-service") =
       .obj ([] : List (String × Json)) ∧
     isArrOrAbsent (lookupKV ([] : List (String × Json)) "control") = true) ∧
    (∃ d : Json,
      process_command "start" (some (.obj c1Payload)) emptyStore "T0" =
        [.read ("s1" ++ ":aof-service"), .write ("s1" ++ ":aof-service") d] ∧
      retrieve_session_state
        (replay emptyStore (process_command "start" (some (.obj c1Payload)) emptyStore "T0"))
        ("s1" ++ ":aof-service") = d ∧
      controlList d =
        controlList (.obj ([] : List (String × Json))) ++
          [ctrlEntry (.str "s1") "start" "T0" (objGet c1Payload "reason")] ∧
      (controlList d).length =
        (controlList (.obj ([] : List (String × Json)))).length + 1 ∧
      (controlList d).getLast? =
        some (ctrlEntry (.str "s1") "start" "T0" (objGet c1Payload "reason")) ∧
      (ctrlEntry (.str "s1") "start" "T0" (objGet c1Payload "reason")).field "action" =
        some (.str "start") ∧
      d.field "sessionId" = some (.str "s1") ∧
      d.field "patientDID" = some (objGet c1Payload "patientDID") ∧
      d.field "clinicianDID" = some (objGet c1Payload "clinicianDID") ∧
      d.field "clinicName" = some (objGet c1Payload "clinicName") ∧
      d.field "startTime" = some (objGetD c1Payload "startTime" (.str "T0")) ∧
      d.field "audioConfig" = some (objGetD c1Payload "audioConfig" (.obj [])) ∧
      d.field "transcriptPreferences" =
        some (objGetD c1Payload "transcriptPreferences" (.obj []))) :=
  ⟨⟨by decide, by decide, rfl, by decide⟩,
    start_command_semantics c1Payload [] "s1" emptyStore "T0"
      (by decide) (by decide) rfl (by decide)⟩

/-- C2: for every non-empty sequence of transcription events for the
same session processed serially from an empty store, the final
document at the raw session key has exactly the transcripts in
processing order, and each event's trace is a store read, then the
store write, then a publish on aof.word.highlighted whose
highlightedWord is that event's transcript. -/
theorem transcription_sequence_semantics (s now : String) (ts : List Json)
    (hs : s ≠ "") (hne : ts ≠ []) :
    (runTranscriptions s now ts emptyStore).1 s =
      .found (.obj [("transcriptions", .arr ts)]) ∧
    (runTranscriptions s now ts emptyStore).2.length = ts.length ∧
    ∀ (i : Nat) (t : Json), ts[i]? = some t →
      (runTranscriptions s now ts emptyStore).2[i]? = some
        [.read s,
         .write s (.obj [("transcriptions", .arr (ts.take (i + 1)))]),
         .publish "aof.word.highlighted"
           (.obj [("sessionId", .str s), ("highlightedWord", t),
                  ("timestamp", .str now)])] := by
  obtain ⟨h1, h2, h3⟩ :=
    runTranscriptions_inv s now hs ts [] emptyStore (Or.inr ⟨rfl, rfl⟩)
  rcases h1 with h1 | ⟨_, h1b⟩
  · exact ⟨by simpa using h1, h2, by simpa using h3⟩
  · exact absurd h1b (by simpa using hne)

theorem transcription_sequence_semantics_witness :
    ("s1" ≠ "" ∧ ([Json.str "hello"] : List Json) ≠ []) ∧
    ((runTranscriptions "s1" "T0" [.str "hello"] emptyStore).1 "s1" =
      .found (.obj [("transcriptions", .arr [.str "hello"])]) ∧
    (runTranscriptions "s1" "T0" [.str "hello"] emptyStore).2.length =
      ([Json.str "hello"] : List Json).length ∧
    ∀ (i : Nat) (t : Json), ([Json.str "hello"] : List Json)[i]? = some t →
      (runTranscriptions "s1" "T0" [.str "hello"] emptyStore).2[i]? = some
        [.read "s1",
         .write "s1" (.obj [("transcriptions", .arr (([Json.str "hello"] : List Json).take (i + 1)))]),
         .publish "aof.word.highlighted"
           (.obj [("sessionId", .str "s1"), ("highlightedWord", t),
                  ("timestamp", .str "T0")])]) :=
  ⟨⟨by decide, by decide⟩,
    transcription_sequence_semantics "s1" "T0" [.str "hello"] (by decide) (by decide)⟩

/-- C8: retrieve_session_state returns the empty document both when the
key was never written and when the read or deserialization failed; the
error is swallowed, never propagated. -/
theorem retrieve_missing_or_error_empty (store : Store) (k : String)
    (h : store k = .notFound ∨ store k = .err) :
    retrieve_session_state store k = .obj [] := by
  rcases h with h | h <;> simp [retrieve_session_state, h]

theorem retrieve_missing_or_error_empty_witness :
    (((fun _ => ReadResult.err : Store) "s1" = .notFound ∨
      (fun _ => ReadResult.err : Store) "s1" = .err) ∧
     retrieve_session_state (fun _ => ReadResult.err : Store) "s1" = .obj []) ∧
    ((emptyStore "s1" = .notFound ∨ emptyStore "s1" = .err) ∧
     retrieve_session_state emptyStore "s1" = .obj []) :=
  ⟨⟨Or.inr rfl, retrieve_missing_or_error_empty (fun _ => ReadResult.err) "s1" (Or.inr rfl)⟩,
   ⟨Or.inl rfl, retrieve_missing_or_error_empty emptyStore "s1" (Or.inl rfl)⟩⟩

/-- C3: processing an identical stop event twice for the same session
appends two stop ControlEvents (no idempotence under redelivery), and
each processing sets endTime to that handling's processing-time clock. -/
theorem stop_redelivery_duplicates
    (kvs okvs : List (String × Json)) (s : String) (store : Store)
    (now1 now2 : String)
    (hsid : lookupKV kvs "sessionId" = some (.str s)) (hs : s ≠ "")
    (hold : retrieve_session_state store (s ++ ":aof-service") = .obj okvs)
    (hctrl : isArrOrAbsent (lookupKV okvs "control") = true) :
    controlList (retrieve_session_state
        (replay (replay store (process_command "stop" (some (.obj kvs)) store now1))
          (process_command "stop" (some (.obj kvs))
            (replay store (process_command "stop" (some (.obj kvs)) store now1)) now2))
        (s ++ ":aof-service")) =
      controlList (.obj okvs) ++
        [ctrlEntry (.str s) "stop" now1 (objGet kvs "reason"),
         ctrlEntry (.str s) "stop" now2 (objGet kvs "reason")] ∧
    (controlList (retrieve_session_state
        (replay (replay store (process_command "stop" (some (.obj kvs)) store now1))
          (process_command "stop" (some (.obj kvs))
            (replay store (process_command "stop" (some (.obj kvs)) store now1)) now2))
        (s ++ ":aof-service"))).length =
      (controlList (.obj okvs)).length + 2 ∧
    (retrieve_session_state
        (replay store (process_command "stop" (some (.obj kvs)) store now1))
        (s ++ ":aof-service")).field "endTime" = some (.str now1) ∧
    (retrieve_session_state
        (replay (replay store (process_command "stop" (some (.obj kvs)) store now1))
          (process_command "stop" (some (.obj kvs))
            (replay store (process_command "stop" (some (.obj kvs)) store now1)) now2))
        (s ++ ":aof-service")).field "endTime" = some (.str now2) := by
  have h1 := process_command_run "stop" kvs okvs s store now1 hsid hs hold hctrl
  have hold1 : retrieve_session_state
      (replay store (process_command "stop" (some (.obj kvs)) store now1))
      (s ++ ":aof-service") = .obj (commandResultKVs "stop" kvs okvs (.str s) now1) := by
    rw [h1, replay_command_trace, retrieve_set_self]
  have hctrl1 : isArrOrAbsent
      (lookupKV (commandResultKVs "stop" kvs okvs (.str s) now1) "control") = true := by
    rw [commandResult_control]; rfl
  have h2 := process_command_run "stop" kvs
    (commandResultKVs "stop" kvs okvs (.str s) now1) s
    (replay store (process_command "stop" (some (.obj kvs)) store now1)) now2
    hsid hs hold1 hctrl1
  have hold2 : retrieve_session_state
      (replay (replay store (process_command "stop" (some (.obj kvs)) store now1))
        (process_command "stop" (some (.obj kvs))
          (replay store (process_command "stop" (some (.obj kvs)) store now1)) now2))
      (s ++ ":aof-service") =
      .obj (commandResultKVs "stop" kvs
        (commandResultKVs "stop" kvs okvs (.str s) now1) (.str s) now2) := by
    rw [h2, replay_command_trace, retrieve_set_self]
  refine ⟨?_, ?_, ?_, ?_⟩
  · rw [hold2]
    simp [controlList, arrField, Json.field, commandResult_control]
  · rw [hold2]
    simp [controlList, arrField, Json.field, commandResult_control]
  · rw [hold1]
    simp [Json.field, commandResult_stop_endTime]
  · rw [hold2]
    simp [Json.field, commandResult_stop_endTime]

/-- The stop payload \x7b"sessionId":"s1"\x7d used to witness C3. -/
def c3Payload : List (String × Json) := [("sessionId", .str "s1")]

theorem stop_redelivery_duplicates_witness :
    (lookupKV c3Payload "sessionId" = some (.str "s1") ∧ "s1" ≠ "" ∧
     retrieve_session_state emptyStore ("s1" ++ ":aof-service") =
       .obj ([] : List (String × Json)) ∧
     isArrOrAbsent (lookupKV ([] : List (String × Json)) "control") = true) ∧
    (controlList (retrieve_session_state
        (replay (replay emptyStore (process_command "stop" (some (.obj c3Payload)) emptyStore "T1"))
          (process_command "stop" (some (.obj c3Payload))
            (replay emptyStore (process_command "stop" (some (.obj c3Payload)) emptyStore "T1")) "T2"))
        ("s1" ++ ":aof-service")) =
      controlList (.obj ([] : List (String × Json))) ++
        [ctrlEntry (.str "s1") "stop" "T1" (objGet c3Payload "reason"),
         ctrlEntry (.str "s1") "stop" "T2" (objGet c3Payload "reason")] ∧
    (controlList (retrieve_session_state
        (replay (replay emptyStore (process_command "stop" (some (.obj c3Payload)) emptyStore "T1"))
          (process_command "stop" (some (.obj c3Payload))
            (replay emptyStore (process_command "stop" (some (.obj c3Payload)) emptyStore "T1")) "T2"))
        ("s1" ++ ":aof-service"))).length =
      (controlList (.obj ([] : List (String × Json)))).length + 2 ∧
    (retrieve_session_state
        (replay emptyStore (process_command "stop" (some (.obj c3Payload)) emptyStore "T1"))
        ("s1" ++ ":aof-service")).field "endTime" = some (.str "T1") ∧
    (retrieve_session_state
        (replay (replay emptyStore (process_command "stop" (some (.obj c3Payload)) emptyStore "T1"))
          (process_command "stop" (some (.obj c3Payload))
            (replay emptyStore (process_command "stop" (some (.obj c3Payload)) emptyStore "T1")) "T2"))
        ("s1" ++ ":aof-service")).field "endTime" = some (.str "T2")) :=
  ⟨⟨by decide, by decide, rfl, by decide⟩,
    stop_redelivery_duplicates c3Payload [] "s1" emptyStore "T1" "T2"
      (by decide) (by decide) rfl (by decide)⟩

/-- Whether an inbound message payload lacks a sessionId field: the raw
bytes did not parse as JSON, the parsed value is not a JSON object, or
the object has no "sessionId" key. -/
def noSessionId (parsed : Option Json) : Prop :=
  match parsed with
  | some (.obj kvs) => lookupKV kvs "sessionId" = none
  | _ => True

/-- C4: a message whose payload is not valid JSON or has no sessionId
field is discarded by both handlers with no store read, no store write
and no publish; the store is exactly what it was before. -/
theorem malformed_message_no_effects (cmd : String) (parsed : Option Json)
    (store : Store) (now : String) (h : noSessionId parsed) :
    process_command cmd parsed store now = [] ∧
    process_transcription parsed store now = [] ∧
    replay store (process_command cmd parsed store now) = store ∧
    replay store (process_transcription parsed store now) = store := by
  have hcmd : process_command cmd parsed store now = [] := by
    cases parsed with
    | none => rfl
    | some j =>
      cases j with
      | null => rfl
      | bool b => rfl
      | num n => rfl
      | str s => rfl
      | arr xs => rfl
      | obj kvs =>
        simp only [noSessionId] at h
        simp [process_command, process_command_body, objGet, h, Json.truthy]
  have htrans : process_transcription parsed store now = [] := by
    cases parsed with
    | none => rfl
    | some j =>
      cases j with
      | null => rfl
      | bool b => rfl
      | num n => rfl
      | str s => rfl
      | arr xs => rfl
      | obj kvs =>
        simp only [noSessionId] at h
        simp [process_transcription, process_transcription_body, objGet, h, Json.truthy]
  exact ⟨hcmd, htrans, by rw [hcmd]; rfl, by rw [htrans]; rfl⟩

theorem malformed_message_no_effects_witness :
    (noSessionId (some (.obj [("transcript", .str "hello")])) ∧
     process_command "start" (some (.obj [("transcript", .str "hello")])) emptyStore "T0" = [] ∧
     process_transcription (some (.obj [("transcript", .str "hello")])) emptyStore "T0" = [] ∧
     replay emptyStore (process_command "start" (some (.obj [("transcript", .str "hello")])) emptyStore "T0") = emptyStore ∧
     replay emptyStore (process_transcription (some (.obj [("transcript", .str "hello")])) emptyStore "T0") = emptyStore) ∧
    (noSessionId none ∧
     process_command "stop" none emptyStore "T0" = [] ∧
     process_transcription none emptyStore "T0" = [] ∧
     replay emptyStore (process_command "stop" none emptyStore "T0") = emptyStore ∧
     replay emptyStore (process_transcription none emptyStore "T0") = emptyStore) :=
  ⟨⟨by simp [noSessionId, lookupKV],
    malformed_message_no_effects "start" (some (.obj [("transcript", .str "hello")]))
      emptyStore "T0" (by simp [noSessionId, lookupKV])⟩,
   ⟨trivial,
    malformed_message_no_effects "stop" none emptyStore "T0" trivial⟩⟩

/-- C5: no exception escapes a message handler: for every input,
process_command and process_transcription return normally with exactly
the effects their (possibly raising) bodies performed; in particular on
inputs whose bodies do raise (a non-dict command payload, a non-dict
transcription payload) the handlers still return, with no effects. -/
theorem handler_exception_totality :
    (∀ (cmd : String) (parsed : Option Json) (store : Store) (now : String),
      process_command cmd parsed store now =
        (process_command_body cmd parsed store now).effects) ∧
    (∀ (parsed : Option Json) (store : Store) (now : String),
      process_transcription parsed store now =
        (process_transcription_body parsed store now).effects) ∧
    (process_command_body "start" (some (.num 3)) emptyStore "T0").isRaised = true ∧
    process_command "start" (some (.num 3)) emptyStore "T0" = [] ∧
    (process_transcription_body (some (.str "x")) emptyStore "T0").isRaised = true ∧
    process_transcription (some (.str "x")) emptyStore "T0" = [] := by
  refine ⟨?_, ?_, rfl, rfl, rfl, rfl⟩
  · intro cmd parsed store now
    cases h : process_command_body cmd parsed store now <;>
      simp [process_command, h, BodyResult.effects]
  · intro parsed store now
    cases h : process_transcription_body parsed store now <;>
      simp [process_transcription, h, BodyResult.effects]

/-- C7: a pause or resume command with a (non-empty string) sessionId
appends exactly one ControlEvent to the document's control sequence and
changes no other field of the document. -/
theorem pause_resume_frame (cmd : String) (hcmd : cmd = "pause" ∨ cmd = "resume")
    (kvs okvs : List (String × Json)) (s : String) (store : Store) (now : String)
    (hsid : lookupKV kvs "sessionId" = some (.str s)) (hs : s ≠ "")
    (hold : retrieve_session_state store (s ++ ":aof-service") = .obj okvs)
    (hctrl : isArrOrAbsent (lookupKV okvs "control") = true) :
    ∃ d : Json,
      process_command cmd (some (.obj kvs)) store now =
        [.read (s ++ ":aof-service"), .write (s ++ ":aof-service") d] ∧
      controlList d =
        controlList (.obj okvs) ++ [ctrlEntry (.str s) cmd now (objGet kvs "reason")] ∧
      (controlList d).length = (controlList (.obj okvs)).length + 1 ∧
      (∀ f, f ≠ "control" → d.field f = Json.field (.obj okvs) f) := by
  have h1 : cmd ≠ "start" := by rcases hcmd with h | h <;> subst h <;> decide
  have h2 : cmd ≠ "stop" := by rcases hcmd with h | h <;> subst h <;> decide
  have hrun := process_command_run cmd kvs okvs s store now hsid hs hold hctrl
  refine ⟨.obj (commandResultKVs cmd kvs okvs (.str s) now), hrun, ?_, ?_, ?_⟩
  · simp [controlList, arrField, Json.field, commandResult_control]
  · simp [controlList, arrField, Json.field, commandResult_control]
  · intro f hf
    simp [Json.field, commandResult_frame cmd kvs okvs (.str s) now f h1 h2 hf]

/-- The prior document used to witness C7: every frame field populated. -/
def c7Doc : List (String × Json) :=
  [("sessionId", .str "s1"), ("patientDID", .str "p1"),
   ("clinicianDID", .str "c1"), ("clinicName", .str "clinic"),
   ("startTime", .str "2024-01-01T00:00:00Z"), ("endTime", .str "E"),
   ("audioConfig", .obj [("rate", .num 16000)]),
   ("transcriptPreferences", .obj [("lang", .str "en")]),
   ("transcriptions", .arr [.str "hello"]),
   ("control", .arr [ctrlEntry (.str "s1") "start" "T0" .null])]

theorem pause_resume_frame_witness :
    (("pause" = "pause" ∨ "pause" = "resume") ∧
     lookupKV c3Payload "sessionId" = some (.str "s1") ∧ "s1" ≠ "" ∧
     retrieve_session_state (Store.set emptyStore "s1:aof-service" (.obj c7Doc))
       ("s1" ++ ":aof-service") = .obj c7Doc ∧
     isArrOrAbsent (lookupKV c7Doc "control") = true) ∧
    (∃ d : Json,
      process_command "pause" (some (.obj c3Payload))
          (Store.set emptyStore "s1:aof-service" (.obj c7Doc)) "T5" =
        [.read ("s1" ++ ":aof-service"), .write ("s1" ++ ":aof-service") d] ∧
      controlList d =
        controlList (.obj c7Doc) ++ [ctrlEntry (.str "s1") "pause" "T5" (objGet c3Payload "reason")] ∧
      (controlList d).length = (controlList (.obj c7Doc)).length + 1 ∧
      (∀ f, f ≠ "control" → d.field f = Json.field (.obj c7Doc) f)) :=
  ⟨⟨Or.inl rfl, by decide, by decide, by decide, by decide⟩,
    pause_resume_frame "pause" (Or.inl rfl) c3Payload c7Doc "s1"
      (Store.set emptyStore "s1:aof-service" (.obj c7Doc)) "T5"
      (by decide) (by decide) (by decide) (by decide)⟩

/-- C6 fails as stated: the ControlEvent appended by a stop command for
session "s1" is a record of the four fields sessionId, action,
timestamp, reason — it carries a sessionId field, so its field set is
not exactly \x7baction, timestamp, reason\x7d. -/
theorem control_event_fields_counterexample :
    controlList (retrieve_session_state
        (replay emptyStore (process_command_stop
          (some (.obj [("sessionId", .str "s1")])) emptyStore "T0"))
        "s1:aof-service") =
      [.obj [("sessionId", .str "s1"), ("action", .str "stop"),
             ("timestamp", .str "T0"), ("reason", .null)]] ∧
    Json.keys (.obj [("sessionId", .str "s1"), ("action", .str "stop"),
             ("timestamp", .str "T0"), ("reason", .null)]) =
      ["sessionId", "action", "timestamp", "reason"] ∧
    Json.keys (.obj [("sessionId", .str "s1"), ("action", .str "stop"),
             ("timestamp", .str "T0"), ("reason", .null)]) ≠
      ["action", "timestamp", "reason"] := by
  decide

/-- C6 (amended): every ControlEvent appended by process_command is a
record of exactly the fields \x7bsessionId, action, timestamp, reason\x7d,
its action is the dispatched command type (one of
start/stop/pause/resume), its reason is the payload's reason field, and
its timestamp is always the processing-time clock of the handling
instance — never a value taken from the message payload. -/
theorem control_event_shape (cmd : String)
    (hcmd : cmd = "start" ∨ cmd = "stop" ∨ cmd = "pause" ∨ cmd = "resume")
    (kvs okvs : List (String × Json)) (s : String) (store : Store) (now : String)
    (hsid : lookupKV kvs "sessionId" = some (.str s)) (hs : s ≠ "")
    (hold : retrieve_session_state store (s ++ ":aof-service") = .obj okvs)
    (hctrl : isArrOrAbsent (lookupKV okvs "control") = true) :
    ∃ d : Json,
      process_command cmd (some (.obj kvs)) store now =
        [.read (s ++ ":aof-service"), .write (s ++ ":aof-service") d] ∧
      controlList d =
        controlList (.obj okvs) ++ [ctrlEntry (.str s) cmd now (objGet kvs "reason")] ∧
      (ctrlEntry (.str s) cmd now (objGet kvs "reason")).keys =
        ["sessionId", "action", "timestamp", "reason"] ∧
      (ctrlEntry (.str s) cmd now (objGet kvs "reason")).field "action" =
        some (.str cmd) ∧
      (ctrlEntry (.str s) cmd now (objGet kvs "reason")).field "timestamp" =
        some (.str now) ∧
      (ctrlEntry (.str s) cmd now (objGet kvs "reason")).field "reason" =
        some (objGet kvs "reason") := by
  have hrun := process_command_run cmd kvs okvs s store now hsid hs hold hctrl
  refine ⟨.obj (commandResultKVs cmd kvs okvs (.str s) now), hrun, ?_, ?_, ?_, ?_, ?_⟩
  · simp [controlList, arrField, Json.field, commandResult_control]
  · simp [ctrlEntry, Json.keys]
  · simp [ctrlEntry, Json.field, lookupKV]
  · simp [ctrlEntry, Json.field, lookupKV]
  · simp [ctrlEntry, Json.field, lookupKV]

/-- The resume payload used to witness the amended C6: it carries a
decoy timestamp field that must not end up in the control event. -/
def c6Payload : List (String × Json) :=
  [("sessionId", .str "s1"), ("timestamp", .str "FROM-PAYLOAD"),
   ("reason", .str "user")]

theorem control_event_shape_witness :
    (("resume" = "start" ∨ "resume" = "stop" ∨ "resume" = "pause" ∨
        "resume" = "resume") ∧
     lookupKV c6Payload "sessionId" = some (.str "s1") ∧ "s1" ≠ "" ∧
     retrieve_session_state emptyStore ("s1" ++ ":aof-service") =
       .obj ([] : List (String × Json)) ∧
     isArrOrAbsent (lookupKV ([] : List (String × Json)) "control") = true) ∧
    (∃ d : Json,
      process_command "resume" (some (.obj c6Payload)) emptyStore "T9" =
        [.read ("s1" ++ ":aof-service"), .write ("s1" ++ ":aof-service") d] ∧
      controlList d =
        controlList (.obj ([] : List (String × Json))) ++
          [ctrlEntry (.str "s1") "resume" "T9" (objGet c6Payload "reason")] ∧
      (ctrlEntry (.str "s1") "resume" "T9" (objGet c6Payload "reason")).keys =
        ["sessionId", "action", "timestamp", "reason"] ∧
      (ctrlEntry (.str "s1") "resume" "T9" (objGet c6Payload "reason")).field "action" =
        some (.str "resume") ∧
      (ctrlEntry (.str "s1") "resume" "T9" (objGet c6Payload "reason")).field "timestamp" =
        some (.str "T9") ∧
      (ctrlEntry (.str "s1") "resume" "T9" (objGet c6Payload "reason")).field "reason" =
        some (objGet c6Payload "reason")) :=
  ⟨⟨Or.inr (Or.inr (Or.inr rfl)), by decide, by decide, rfl, by decide⟩,
    control_event_shape "resume" (Or.inr (Or.inr (Or.inr rfl))) c6Payload []
      "s1" emptyStore "T9" (by decide) (by decide) rfl (by decide)⟩

/-- C9: a start command overwrites the session-initiation fields
unconditionally from its own payload: when the payload omits patientDID
or clinicianDID the stored value becomes null, and when it omits
audioConfig or transcriptPreferences the stored value becomes the empty
object — replacing whatever an earlier start had stored. -/
theorem start_overwrites_initiation
    (kvs okvs : List (String × Json)) (s : String) (store : Store) (now : String)
    (hsid : lookupKV kvs "sessionId" = some (.str s)) (hs : s ≠ "")
    (hold : retrieve_session_state store (s ++ ":aof-service") = .obj okvs)
    (hctrl : isArrOrAbsent (lookupKV okvs "control") = true)
    (hp : lookupKV kvs "patientDID" = none)
    (hc : lookupKV kvs "clinicianDID" = none)
    (ha : lookupKV kvs "audioConfig" = none)
    (ht : lookupKV kvs "transcriptPreferences" = none) :
    ∃ d : Json,
      process_command "start" (some (.obj kvs)) store now =
        [.read (s ++ ":aof-service"), .write (s ++ ":aof-service") d] ∧
      d.field "patientDID" = some .null ∧
      d.field "clinicianDID" = some .null ∧
      d.field "audioConfig" = some (.obj []) ∧
      d.field "transcriptPreferences" = some (.obj []) := by
  have hrun := process_command_run "start" kvs okvs s store now hsid hs hold hctrl
  obtain ⟨f1, f2, f3, f4, f5, f6, f7⟩ := commandResult_start_fields kvs okvs (.str s) now
  refine ⟨.obj (commandResultKVs "start" kvs okvs (.str s) now), hrun, ?_, ?_, ?_, ?_⟩
  · rw [Json.field, f2]; simp [objGet, hp]
  · rw [Json.field, f3]; simp [objGet, hc]
  · rw [Json.field, f6]; simp [objGetD, ha]
  · rw [Json.field, f7]; simp [objGetD, ht]

/-- The prior document used to witness C9: values stored by an earlier
start that the repeated start must replace. -/
def c9Doc : List (String × Json) :=
  [("sessionId", .str "s1"), ("patientDID", .str "OLD-P"),
   ("clinicianDID", .str "OLD-C"),
   ("audioConfig", .obj [("rate", .num 8000)]),
   ("transcriptPreferences", .obj [("lang", .str "de")]),
   ("control", .arr [ctrlEntry (.str "s1") "start" "T0" .null])]

theorem start_overwrites_initiation_witness :
    (lookupKV c3Payload "sessionId" = some (.str "s1") ∧ "s1" ≠ "" ∧
     retrieve_session_state (Store.set emptyStore "s1:aof-service" (.obj c9Doc))
       ("s1" ++ ":aof-service") = .obj c9Doc ∧
     isArrOrAbsent (lookupKV c9Doc "control") = true ∧
     lookupKV c3Payload "patientDID" = none ∧
     lookupKV c3Payload "clinicianDID" = none ∧
     lookupKV c3Payload "audioConfig" = none ∧
     lookupKV c3Payload "transcriptPreferences" = none) ∧
    (∃ d : Json,
      process_command "start" (some (.obj c3Payload))
          (Store.set emptyStore "s1:aof-service" (.obj c9Doc)) "T7" =
        [.read ("s1" ++ ":aof-service"), .write ("s1" ++ ":aof-service") d] ∧
      d.field "patientDID" = some .null ∧
      d.field "clinicianDID" = some .null ∧
      d.field "audioConfig" = some (.obj []) ∧
      d.field "transcriptPreferences" = some (.obj [])) :=
  ⟨⟨by decide, by decide, by decide, by decide, by decide, by decide, by decide, by decide⟩,
    start_overwrites_initiation c3Payload c9Doc "s1"
      (Store.set emptyStore "s1:aof-service" (.obj c9Doc)) "T7"
      (by decide) (by decide) (by decide) (by decide)
      (by decide) (by decide) (by decide) (by decide)⟩

/-- C10: a transcription message with a sessionId but no transcript
field still appends an entry — the null value — to transcriptions,
persists the document, and publishes a highlighted-word event whose
highlightedWord is null; the transcript field's presence is never
checked. -/
theorem transcription_missing_transcript_null
    (kvs okvs : List (String × Json)) (s : String) (store : Store) (now : String)
    (hsid : lookupKV kvs "sessionId" = some (.str s)) (hs : s ≠ "")
    (hnt : lookupKV kvs "transcript" = none)
    (hold : retrieve_session_state store s = .obj okvs)
    (hts : isArrOrAbsent (lookupKV okvs "transcriptions") = true) :
    ∃ d : Json,
      process_transcription (some (.obj kvs)) store now =
        [.read s, .write s d,
         .publish "aof.word.highlighted"
           (.obj [("sessionId", .str s), ("highlightedWord", .null),
                  ("timestamp", .str now)])] ∧
      d.field "transcriptions" =
        some (.arr (arrField (.obj okvs) "transcriptions" ++ [.null])) := by
  have h := process_transcription_run kvs okvs s store now hsid hs hold hts
  rw [show objGet kvs "transcript" = .null from by simp [objGet, hnt]] at h
  refine ⟨.obj (setKV okvs "transcriptions"
    (.arr (arrField (.obj okvs) "transcriptions" ++ [.null]))), h, ?_⟩
  simp [Json.field, lookupKV_setKV]

theorem transcription_missing_transcript_null_witness :
    (lookupKV c3Payload "sessionId" = some (.str "s1") ∧ "s1" ≠ "" ∧
     lookupKV c3Payload "transcript" = none ∧
     retrieve_session_state emptyStore "s1" = .obj ([] : List (String × Json)) ∧
     isArrOrAbsent (lookupKV ([] : List (String × Json)) "transcriptions") = true) ∧
    (∃ d : Json,
      process_transcription (some (.obj c3Payload)) emptyStore "T0" =
        [.read "s1", .write "s1" d,
         .publish "aof.word.highlighted"
           (.obj [("sessionId", .str "s1"), ("highlightedWord", .null),
                  ("timestamp", .str "T0")])] ∧
      d.field "transcriptions" =
        some (.arr (arrField (.obj ([] : List (String × Json))) "transcriptions" ++ [.null]))) :=
  ⟨⟨by decide, by decide, by decide, rfl, by decide⟩,
    transcription_missing_transcript_null c3Payload [] "s1" emptyStore "T0"
      (by decide) (by decide) (by decide) rfl (by decide)⟩

end AOF
